import Mathlib

/-!
Verification of the in-memory todo store of `coding_todo.py`.

The store is a Python `dict` from string ids to `Todo` objects (insertion
ordered), modelled here as an association list.  Timestamps (`datetime`) are
modelled as natural numbers; `datetime.now()` calls inside an operation become
an explicit `now : Nat` argument.  The pydantic `Todo` class declares
`created_at: datetime = datetime.now()`, a default expression evaluated once
at class-definition (module import) time; that single module-level constant is
modelled as the explicit argument `t0` of `add_todo`.  Operations that raise
`ValueError` return the store they leave behind, paired with
`Except String String` (error message or returned confirmation string).
-/

namespace CodingTodo

/-- The `TodoStatus` string enum: pending / in_progress / completed. -/
inductive TodoStatus where
  | pending
  | in_progress
  | completed
deriving DecidableEq

/-- `.value` of the string enum member. -/
def TodoStatus.value : TodoStatus → String
  | .pending => "pending"
  | .in_progress => "in_progress"
  | .completed => "completed"

/-- `TodoStatus(s)`: coercion of a string into the enum; `none` models the
`ValueError` raised for a non-member string. -/
def TodoStatus.fromString (s : String) : Option TodoStatus :=
  if s = "pending" then some TodoStatus.pending
  else if s = "in_progress" then some TodoStatus.in_progress
  else if s = "completed" then some TodoStatus.completed
  else none

/-- The pydantic `Todo` model. `priority` is a Python `int` (unbounded,
possibly negative), timestamps are `Nat`. -/
structure Todo where
  id : String
  title : String
  description : String
  status : TodoStatus
  created_at : Nat
  updated_at : Option Nat
  project : Option String
  priority : Int
  tags : List String
deriving DecidableEq

/-- The module-level store `todos: Dict[str, Todo]`, an insertion-ordered
mapping from id to task. -/
abbrev Store := List (String × Todo)

/-- `todos[k]` lookup, `none` when the key is absent. -/
def dictGet (k : String) : Store → Option Todo
  | [] => none
  | (k2, v) :: rest => if k2 = k then some v else dictGet k rest

/-- `todos[k] = v`: Python dict assignment.  An existing key keeps its
position and has its value replaced; a new key is appended at the end. -/
def dictInsert (k : String) (v : Todo) : Store → Store
  | [] => [(k, v)]
  | (k2, v2) :: rest =>
      if k2 = k then (k, v) :: rest else (k2, v2) :: dictInsert k v rest

/-- `del todos[k]`: removes the entry with key `k`. -/
def dictDelete (k : String) : Store → Store
  | [] => []
  | (k2, v2) :: rest => if k2 = k then rest else (k2, v2) :: dictDelete k rest

/-- `todos.values()` in insertion order. -/
def values (todos : Store) : List Todo := todos.map Prod.snd

/-- `add_todo(title, description, project=None, priority=1, tags=None)`.
The new id is `"todo" + str(len(todos) + 1)`.  The constructed `Todo` takes
the class defaults `status=PENDING`, `updated_at=None`, and
`created_at = t0`, the module-import-time value of the class-level default
`datetime.now()` (the code reads no clock during `add_todo`).  `tags or []`
maps both `None` and `[]` to `[]`. -/
def add_todo (t0 : Nat) (title description : String) (project : Option String)
    (priority : Int) (tags : Option (List String)) (todos : Store) :
    Store × String :=
  let todo_id := "todo" ++ toString (todos.length + 1)
  let new_todo : Todo :=
    { id := todo_id
      title := title
      description := description
      status := TodoStatus.pending
      created_at := t0
      updated_at := none
      project := project
      priority := priority
      tags := tags.getD [] }
  (dictInsert todo_id new_todo todos,
   "Added todo \x27" ++ title ++ "\x27 with ID: " ++ todo_id)

/-- `update_todo_status(id, status)`.  Checks membership, then coerces the
status string; `TodoStatus(status)` is evaluated before any assignment, so a
non-member string leaves the task untouched. -/
def update_todo_status (now : Nat) (id status : String) (todos : Store) :
    Store × Except String String :=
  match dictGet id todos with
  | none => (todos, Except.error ("Todo not found: " ++ id))
  | some t =>
    match TodoStatus.fromString status with
    | none =>
        (todos, Except.error ("Invalid status: " ++ status
          ++ ". Must be one of: pending, in_progress, completed"))
    | some st =>
        let t := { t with status := st, updated_at := some now }
        (dictInsert id t todos,
         Except.ok ("Updated todo \x27" ++ t.title ++ "\x27 status to " ++ status))

/-- `delete_todo(id)`. -/
def delete_todo (id : String) (todos : Store) : Store × Except String String :=
  match dictGet id todos with
  | none => (todos, Except.error ("Todo not found: " ++ id))
  | some t =>
      (dictDelete id todos,
       Except.ok ("Deleted todo \x27" ++ t.title ++ "\x27 (ID: " ++ id ++ ")"))

/-- `update_todo(id, title=None, description=None, project=None,
priority=None, tags=None)`.  The Python code mutates the stored object field
by field: title, description and project are assigned before the priority
range check, so when the check raises, those assignments are already visible
in the store (the returned store reflects them); priority, tags and
`updated_at` are only assigned after the check passes. -/
def update_todo (now : Nat) (id : String)
    (title description project : Option String) (priority : Option Int)
    (tags : Option (List String)) (todos : Store) :
    Store × Except String String :=
  match dictGet id todos with
  | none => (todos, Except.error ("Todo not found: " ++ id))
  | some t =>
    let t := match title with | some v => { t with title := v } | none => t
    let t := match description with | some v => { t with description := v } | none => t
    let t := match project with | some v => { t with project := some v } | none => t
    match priority with
    | some p =>
      if 1 ≤ p ∧ p ≤ 5 then
        let t := { t with priority := p }
        let t := match tags with | some v => { t with tags := v } | none => t
        let t := { t with updated_at := some now }
        (dictInsert id t todos,
         Except.ok ("Updated todo \x27" ++ t.title ++ "\x27 (ID: " ++ id ++ ")"))
      else
        (dictInsert id t todos, Except.error "Priority must be between 1 and 5")
    | none =>
      let t := match tags with | some v => { t with tags := v } | none => t
      let t := { t with updated_at := some now }
      (dictInsert id t todos,
       Except.ok ("Updated todo \x27" ++ t.title ++ "\x27 (ID: " ++ id ++ ")"))

/-- Python truthiness of the optional `project` filter argument: `None` and
the empty string are falsy. -/
def pyTruthy : Option String → Bool
  | none => false
  | some s => decide (s ≠ "")

/-- The `filtered_todos` list built by `summarize_todos`: start from
`todos.values()`, filter by status unless the filter is `"all"`, then filter
by project when the project argument is truthy. -/
def filtered_todos (status : String) (project : Option String)
    (todos : Store) : List Todo :=
  let fs := values todos
  let fs := if status ≠ "all" then fs.filter (fun t => decide (t.status.value = status)) else fs
  if pyTruthy project then fs.filter (fun t => decide (t.project = project)) else fs

/-- One line of the summary body: `- {title} (Priority: {p}): {description}`. -/
def summaryLine (t : Todo) : String :=
  "- " ++ t.title ++ " (Priority: " ++ toString t.priority ++ "): " ++ t.description

/-- `summarize_todos(status="pending", project=None)`: the rendered prompt. -/
def summarize_todos (status : String) (project : Option String)
    (todos : Store) : String :=
  let status_text := if status ≠ "all" then status ++ " " else ""
  let project_text :=
    if pyTruthy project then "for project " ++ project.getD "" ++ " " else ""
  "Here are the current " ++ status_text ++ "todos " ++ project_text
    ++ "to summarize:\n\n"
    ++ String.intercalate "\n" ((filtered_todos status project todos).map summaryLine)
    ++ "\n\nPlease provide a concise summary of these todos and suggest an approach to tackle them efficiently."

/-- The `pending_todos` selection of `suggest_next_todo`: every task whose
status is not `completed`. -/
def pendingTodos (todos : Store) : List Todo :=
  (values todos).filter (fun t => decide (t.status ≠ TodoStatus.completed))

/-- Python tuple order on the sort key `(-t.priority, t.created_at)`. -/
def suggestKeyLe (a b : Todo) : Bool :=
  decide (-a.priority < -b.priority
    ∨ (-a.priority = -b.priority ∧ a.created_at ≤ b.created_at))

/-- `sorted(pending_todos, key=lambda t: (-t.priority, t.created_at))`:
Python sorted is a stable merge sort by the key. -/
def suggestSorted (todos : Store) : List Todo :=
  (pendingTodos todos).mergeSort suggestKeyLe

/-- One line of the suggestion body:
`- {title} (Priority: {p}, Status: {s}): {description}`. -/
def suggestLine (t : Todo) : String :=
  "- " ++ t.title ++ " (Priority: " ++ toString t.priority ++ ", Status: "
    ++ t.status.value ++ "): " ++ t.description

/-- `suggest_next_todo()`: fixed message when no non-completed task exists,
otherwise the rendered priority-ordered list. -/
def suggest_next_todo (todos : Store) : String :=
  if pendingTodos todos = [] then
    "There are no pending todos. Would you like suggestions for new coding tasks to add?"
  else
    "Here are the current pending todos in order of priority:\n\n"
      ++ String.intercalate "\n" ((suggestSorted todos).map suggestLine)
      ++ "\n\nBased on these todos, which one should I tackle next and why? Please provide a brief recommendation."

/-- `isErr r = true` iff the operation raised (`Except.error`). -/
def isErr : Except String String → Bool
  | Except.error _ => true
  | Except.ok _ => false

/-- Looking up a key right after assigning it returns the assigned value. -/
theorem dictGet_dictInsert_self (k : String) (v : Todo) :
    ∀ todos : Store, dictGet k (dictInsert k v todos) = some v
  | [] => by simp [dictGet, dictInsert]
  | (k2, v2) :: rest => by
    by_cases h : k2 = k
    · simp [dictGet, dictInsert, h]
    · simp [dictGet, dictInsert, h, dictGet_dictInsert_self k v rest]

/-! ### Claim C1: id allocation after deletion -/

/-- Store after creating tasks A, B, C in an empty store. -/
def c1_s1 : Store := (add_todo 0 "A" "dA" none 1 none []).1

def c1_s2 : Store := (add_todo 0 "B" "dB" none 1 none c1_s1).1

def c1_s3 : Store := (add_todo 0 "C" "dC" none 1 none c1_s2).1

/-- Store after deleting `todo1` from `c1_s3`. -/
def c1_s4 : Store := (delete_todo "todo1" c1_s3).1

/-- Store after creating task D in `c1_s4`. -/
def c1_s5 : Store := (add_todo 0 "D" "dD" none 1 none c1_s4).1

/-- C1: the claim that id uniqueness survives delete/create sequences fails
on the code.  `add_todo` derives the new id from the current map size
(`"todo" + str(len(todos)+1)`), so after creating A, B, C (ids todo1..todo3)
and deleting todo1, the next creation is assigned id "todo3", which collides
with the surviving task C and silently overwrites it: the store ends with two
entries, titled B and D, and C is lost. -/
theorem C1_code_bug :
    (values c1_s3).map Todo.title = ["A", "B", "C"]
      ∧ (dictGet "todo3" c1_s4).map Todo.title = some "C"
      ∧ (dictGet "todo3" c1_s5).map Todo.title = some "D"
      ∧ (values c1_s5).map Todo.title = ["B", "D"] := by
  refine ⟨rfl, rfl, rfl, rfl⟩

/-! ### Claim C4: created_at is the class-definition-time default -/

/-- C4: the claim that each creation stamps `created_at` with the current
time fails on the code.  `Todo` declares `created_at: datetime =
datetime.now()`, evaluated once at class definition, and `add_todo` never
passes `created_at`, so every created task receives the same module-import
timestamp `t0` no matter when it is created.  The other two parts of the
claim hold: `status` is `pending` and `updated_at` is absent. -/
theorem C4_code_bug (t0 : Nat) :
    (values (add_todo t0 "B" "dB" none 1 none
        (add_todo t0 "A" "dA" none 1 none []).1).1).map Todo.created_at = [t0, t0]
      ∧ (values (add_todo t0 "B" "dB" none 1 none
          (add_todo t0 "A" "dA" none 1 none []).1).1).map Todo.status
        = [TodoStatus.pending, TodoStatus.pending]
      ∧ (values (add_todo t0 "B" "dB" none 1 none
          (add_todo t0 "A" "dA" none 1 none []).1).1).map Todo.updated_at
        = [none, none] := by
  have h : ("todo" ++ toString 1 : String) ≠ "todo" ++ toString 2 := by decide
  refine ⟨?_, ?_, ?_⟩ <;> simp [add_todo, values, dictInsert, h]

/-! ### Claim C2: failed priority update and partial mutation -/

/-- C2 fails as stated: when `update_todo` rejects an out-of-range priority,
fields assigned before the priority check are already mutated.  Concretely,
on a store holding one task titled "old", calling `update_todo` with both a
new title and `priority=6` raises, yet the stored title has changed to
"new". -/
theorem C2_counterexample :
    isErr (update_todo 7 "todo1" (some "new") none none (some 6) none
        (add_todo 0 "old" "d" none 1 none []).1).2 = true
      ∧ (dictGet "todo1" (add_todo 0 "old" "d" none 1 none []).1).map Todo.title
        = some "old"
      ∧ (dictGet "todo1" (update_todo 7 "todo1" (some "new") none none (some 6) none
          (add_todo 0 "old" "d" none 1 none []).1).1).map Todo.title
        = some "new" := by
  refine ⟨rfl, rfl, rfl⟩

/-- C2 amended: when `update_todo` on an existing id rejects a priority
outside [1,5], the error is raised after the title, description and project
arguments (when supplied) have been applied to the stored task, and before
priority, tags or `updated_at` are touched; with only the priority argument
supplied the task is left fully unchanged. -/
theorem C2_amended (now : Nat) (id : String)
    (title description project : Option String) (p : Int)
    (tags : Option (List String)) (todos : Store) (todo : Todo)
    (h1 : dictGet id todos = some todo) (h2 : ¬ (1 ≤ p ∧ p ≤ 5)) :
    update_todo now id title description project (some p) tags todos =
      (dictInsert id
        { todo with
          title := title.getD todo.title
          description := description.getD todo.description
          project := match project with | some v => some v | none => todo.project }
        todos,
       Except.error "Priority must be between 1 and 5") := by
  cases title <;> cases description <;> cases project <;>
    simp [update_todo, h1, h2, Option.getD]

/-- Witness for C2 amended: supplying `title="new"` together with
`priority=6` raises but stores the new title, leaving priority, tags and
`updated_at` alone. -/
theorem C2_amended_witness :
    update_todo 7 "todo1" (some "new") none none (some 6) none
        (add_todo 0 "old" "d" none 1 none []).1 =
      (dictInsert "todo1"
        { id := "todo1", title := "new", description := "d",
          status := TodoStatus.pending, created_at := 0, updated_at := none,
          project := none, priority := 1, tags := [] }
        (add_todo 0 "old" "d" none 1 none []).1,
       Except.error "Priority must be between 1 and 5") := by
  have h := C2_amended 7 "todo1" (some "new") none none 6 none
      (add_todo 0 "old" "d" none 1 none []).1
      { id := "todo1", title := "old", description := "d",
        status := TodoStatus.pending, created_at := 0, updated_at := none,
        project := none, priority := 1, tags := [] }
      rfl (by decide)
  exact h

/-! ### Claim C3: priority range at creation -/

/-- C3 fails as stated: `add_todo` performs no range check, so creating a
task with priority 6 stores priority 6, which is outside [1,5]. -/
theorem C3_counterexample :
    (dictGet "todo1" (add_todo 0 "T" "D" none 6 none []).1).map Todo.priority
      = some 6
      ∧ ¬ (1 ≤ (6 : Int) ∧ (6 : Int) ≤ 5) := by
  exact ⟨rfl, by decide⟩

/-- C3 amended: `add_todo` stores its priority argument verbatim with no
validation, so any out-of-range creation priority (0, 6, ...) ends up in the
store unchanged; only `update_todo` enforces the [1,5] range, rejecting an
out-of-range priority on an existing id with the `InvalidPriority` error. -/
theorem C3_amended (t0 : Nat) (title description : String)
    (project : Option String) (p : Int) (tags : Option (List String))
    (todos : Store) :
    (dictGet ("todo" ++ toString (todos.length + 1))
        (add_todo t0 title description project p tags todos).1).map Todo.priority
      = some p
      ∧ ∀ (now : Nat) (id : String) (todos2 : Store) (todo : Todo),
          dictGet id todos2 = some todo → ¬ (1 ≤ p ∧ p ≤ 5) →
          (update_todo now id none none none (some p) none todos2).2
            = Except.error "Priority must be between 1 and 5" := by
  constructor
  · simp [add_todo, dictGet_dictInsert_self]
  · intro now id todos2 todo h1 h2
    simp [update_todo, h1, h2]

/-- Witness for C3 amended: creating with priority 0 stores priority 0, and
a later `update_todo` with priority 0 on that task is rejected. -/
theorem C3_amended_witness :
    (dictGet "todo1" (add_todo 0 "T" "D" none 0 none []).1).map Todo.priority
      = some 0
      ∧ (update_todo 9 "todo1" none none none (some 0) none
          (add_todo 0 "T" "D" none 0 none []).1).2
        = Except.error "Priority must be between 1 and 5" := by
  have h := C3_amended 0 "T" "D" none 0 none []
  exact ⟨h.1, h.2 9 "todo1" (add_todo 0 "T" "D" none 0 none []).1
    { id := "todo1", title := "T", description := "D",
      status := TodoStatus.pending, created_at := 0, updated_at := none,
      project := none, priority := 0, tags := [] }
    rfl (by decide)⟩

/-! ### Claim C5: invalid status string -/

/-- C5: on an existing id, `update_todo_status` with a string that is none of
pending / in_progress / completed raises the `InvalidStatus` error and
returns the store unchanged: the addressed task keeps its status and its
`updated_at` is not stamped. -/
theorem C5_invalid_status_unchanged (now : Nat) (id s : String) (todos : Store)
    (hid : (dictGet id todos).isSome = true)
    (h1 : s ≠ "pending") (h2 : s ≠ "in_progress") (h3 : s ≠ "completed") :
    update_todo_status now id s todos =
      (todos, Except.error ("Invalid status: " ++ s
        ++ ". Must be one of: pending, in_progress, completed")) := by
  obtain ⟨t, ht⟩ := Option.isSome_iff_exists.mp hid
  have hf : TodoStatus.fromString s = none := by
    simp [TodoStatus.fromString, h1, h2, h3]
  simp [update_todo_status, ht, hf]

/-- Witness for C5: the status string "done" is rejected on a one-task
store, which is returned unchanged. -/
theorem C5_invalid_status_unchanged_witness :
    update_todo_status 3 "todo1" "done" (add_todo 0 "A" "d" none 1 none []).1 =
      ((add_todo 0 "A" "d" none 1 none []).1,
       Except.error "Invalid status: done. Must be one of: pending, in_progress, completed") := by
  have h := C5_invalid_status_unchanged 3 "todo1" "done"
      (add_todo 0 "A" "d" none 1 none []).1 rfl
      (by decide) (by decide) (by decide)
  exact h

/-! ### Claim C6: suggestion selection and ordering -/

/-- C6: the suggestion list is exactly the non-completed tasks (a permutation
of the status filter over the store's values) arranged so that priority is
descending and, within equal priorities, `created_at` is ascending
(earliest first). -/
theorem C6_suggest_order (todos : Store) :
    List.Perm (suggestSorted todos)
        ((values todos).filter (fun t => decide (t.status ≠ TodoStatus.completed)))
      ∧ List.Pairwise (fun a b =>
          b.priority < a.priority
            ∨ (a.priority = b.priority ∧ a.created_at ≤ b.created_at))
        (suggestSorted todos) := by
  constructor
  · exact List.mergeSort_perm _ _
  · have htrans : ∀ (a b c : Todo),
        suggestKeyLe a b → suggestKeyLe b c → suggestKeyLe a c := by
      intro a b c hab hbc
      simp only [suggestKeyLe, decide_eq_true_eq] at hab hbc ⊢
      omega
    have htotal : ∀ (a b : Todo), suggestKeyLe a b || suggestKeyLe b a := by
      intro a b
      simp only [suggestKeyLe, Bool.or_eq_true, decide_eq_true_eq]
      omega
    have h := List.sorted_mergeSort htrans htotal (pendingTodos todos)
    exact List.Pairwise.imp
      (fun hab => by
        simp only [suggestKeyLe, decide_eq_true_eq] at hab
        omega)
      h

/-! ### Claim C7: summary filtering -/

/-- C7: the summary's task selection equals a single pass over the store's
values in insertion order keeping exactly the tasks that pass the status
test (filter is "all" or statuses match) and, when the project argument is
truthy, also match the project; no reordering happens. -/
theorem C7_summary_filter (status : String) (project : Option String)
    (todos : Store) :
    filtered_todos status project todos =
      (values todos).filter (fun t =>
        (decide (status = "all") || decide (t.status.value = status))
        && (!pyTruthy project || decide (t.project = project))) := by
  by_cases hs : status = "all" <;> by_cases hp : pyTruthy project = true <;>
    simp [filtered_todos, hs, hp, List.filter_filter, Bool.and_comm]

/-! ### Claim C8: successful update always stamps updated_at -/

/-- C8: whenever `update_todo` returns a confirmation (does not raise), the
stored task at the addressed id has `updated_at = now`; and a call with every
optional argument absent on an existing id does succeed (so the stamp happens
even when nothing else changes). -/
theorem C8_update_stamps (now : Nat) (id : String)
    (title description project : Option String) (priority : Option Int)
    (tags : Option (List String)) (todos : Store) :
    (∀ msg,
      (update_todo now id title description project priority tags todos).2
          = Except.ok msg →
        ∃ t, dictGet id
            (update_todo now id title description project priority tags todos).1
            = some t
          ∧ t.updated_at = some now)
      ∧ (∀ todo, dictGet id todos = some todo →
          isErr (update_todo now id none none none none none todos).2 = false) := by
  constructor
  · intro msg hmsg
    cases hget : dictGet id todos with
    | none => simp [update_todo, hget] at hmsg
    | some t =>
      cases priority with
      | none =>
        simp only [update_todo, hget]
        exact ⟨_, dictGet_dictInsert_self id _ todos, rfl⟩
      | some p =>
        by_cases hprio : 1 ≤ p ∧ p ≤ 5
        · simp only [update_todo, hget, if_pos hprio]
          exact ⟨_, dictGet_dictInsert_self id _ todos, rfl⟩
        · simp [update_todo, hget, hprio] at hmsg
  · intro todo h
    simp [update_todo, isErr, h]

/-- Witness for C8: an all-absent update on a one-task store succeeds and
stamps `updated_at` to the call time. -/
theorem C8_update_stamps_witness :
    (∃ t, dictGet "todo1" (update_todo 7 "todo1" none none none none none
          (add_todo 0 "A" "d" none 1 none []).1).1 = some t
        ∧ t.updated_at = some 7)
      ∧ isErr (update_todo 7 "todo1" none none none none none
          (add_todo 0 "A" "d" none 1 none []).1).2 = false := by
  have h := C8_update_stamps 7 "todo1" none none none none none
      (add_todo 0 "A" "d" none 1 none []).1
  exact ⟨h.1 "Updated todo \x27A\x27 (ID: todo1)" rfl,
    h.2 { id := "todo1", title := "A", description := "d",
          status := TodoStatus.pending, created_at := 0, updated_at := none,
          project := none, priority := 1, tags := [] } rfl⟩

/-! ### Claim C9: suggestion on an all-completed store -/

/-- C9: when every task in the store is `completed` (in particular on the
empty store), `suggest_next_todo` returns the fixed message, not a rendered
list. -/
theorem C9_all_completed_message (todos : Store)
    (h : ∀ t ∈ values todos, t.status = TodoStatus.completed) :
    suggest_next_todo todos =
      "There are no pending todos. Would you like suggestions for new coding tasks to add?" := by
  have hp : pendingTodos todos = [] := by
    simp only [pendingTodos, List.filter_eq_nil_iff, decide_eq_true_eq, not_not]
    exact h
  simp [suggest_next_todo, hp]

/-- Witness for C9 at a concrete store holding one completed task. -/
theorem C9_all_completed_message_witness :
    suggest_next_todo
        [("todo1",
          { id := "todo1", title := "A", description := "dA",
            status := TodoStatus.completed, created_at := 0, updated_at := none,
            project := none, priority := 1, tags := [] })] =
      "There are no pending todos. Would you like suggestions for new coding tasks to add?" :=
  C9_all_completed_message _ (by decide)

/-! ### Claim C10: empty-string project filter -/

/-- C10: passing the empty string as the project filter is falsy in Python
(`if project:`), so `summarize_todos` with `project=""` renders exactly the
same prompt as with no project filter. -/
theorem C10_empty_project_filter (status : String) (todos : Store) :
    summarize_todos status (some "") todos = summarize_todos status none todos := rfl

end CodingTodo
